import Mathlib

/-!
Shallow embedding of the L7RTCP PoC server core: app/models.py,
app/storage.py and app/handlers.py. Python floats returned by time.time()
are modelled as rationals, Python ints as unbounded integers, the in-memory
dict of the storage and the per-session stream dict as insertion-ordered
association lists, and Python sets as finite sets. Each handler takes the
current wall-clock reading as an explicit argument and returns its result
together with the store it leaves behind.
-/

/-- FeatureToggle from app/models.py: the closed enumeration of protocol
features negotiable between client and server. -/
inductive FeatureToggle
  | core
  | resend
  | ttl
  | backpressure
  | multistream
  | pull
  | pause
  | stateless
  | fec
  | metrics
deriving DecidableEq

/-- StreamState from app/models.py: the per-stream record of received
chunk numbers, a Python set of ints. -/
structure StreamState where
  id : String
  received_chunks : Finset ℤ
  total_chunks : Option ℤ
deriving DecidableEq

/-- TransmissionState from app/models.py: one stored transfer session. -/
structure TransmissionState where
  id : String
  client_id : String
  streams : List (String × StreamState)
  features_enabled : List FeatureToggle
  ttl_seconds : Option ℤ
  created_at : ℚ
  last_received_time : ℚ
  session_type : String
  max_packet_size : Option ℤ
  chunk_size : Option ℤ
deriving DecidableEq

/-- Python truthiness of an Optional[int] header value: false for None and
for 0, true otherwise. The TTL, max-packet-size and chunk-size checks in the
source all test truthiness, not presence. -/
def intTruthy : Option ℤ → Bool
  | none => false
  | some t => t != 0

/-- Python max over a list of ints, with the -1 placeholder get_status uses
for an empty received list (max(received_list) if received_list else -1). -/
def listMax : List ℤ → ℤ
  | [] => -1
  | a :: l => l.foldl max a

/-- The sorted(list(stream_state.received_chunks)) computation of
TransmissionState.get_status. -/
def receivedList (s : Finset ℤ) : List ℤ := s.sort (· ≤ ·)

/-- The missing-chunk computation of TransmissionState.get_status:
sorted(list(set(range(max_received + 1)) - received_chunks)) when
max_received is at least 0, [] otherwise. -/
def missingList (s : Finset ℤ) : List ℤ :=
  if 0 ≤ listMax (receivedList s) then
    ((Finset.Icc 0 (listMax (receivedList s))) \ s).sort (· ≤ ·)
  else []

/-- One per-stream entry of the status dict built by get_status. -/
structure StreamStatus where
  received : List ℤ
  missing : List ℤ
  total : Option ℤ
deriving DecidableEq

/-- The dict returned by TransmissionState.get_status. -/
structure StatusReport where
  transmission_id : String
  streams : List (String × StreamStatus)
  ttl : Option ℤ
  alive : Bool
  last_received_time : ℚ
deriving DecidableEq

/-- The status entry get_status builds for one stream. -/
def streamStatus (st : StreamState) : StreamStatus :=
  { received := receivedList st.received_chunks
    missing := missingList st.received_chunks
    total := st.total_chunks }

/-- The alive computation of get_status: alive starts True and is replaced
by elapsed_time <= ttl_seconds only when ttl_seconds is truthy. -/
def statusAlive (ttl_seconds : Option ℤ) (created_at now : ℚ) : Bool :=
  match ttl_seconds with
  | none => true
  | some t => if t = 0 then true else decide (now - created_at ≤ (t : ℚ))

/-- TransmissionState.get_status, with the time.time() reading passed in as
now. The ttl field is int(ttl_seconds) when truthy, None otherwise. -/
def TransmissionState.get_status (self : TransmissionState) (now : ℚ) : StatusReport :=
  { transmission_id := self.id
    streams := self.streams.map (fun p => (p.1, streamStatus p.2))
    ttl := if intTruthy self.ttl_seconds then self.ttl_seconds else none
    alive := statusAlive self.ttl_seconds self.created_at now
    last_received_time := self.last_received_time }

/-- Python dict assignment d[k] = v on an association list: replace the
binding in place when the key is present, append it otherwise. -/
def dictSet {α : Type} : List (String × α) → String → α → List (String × α)
  | [], k, v => [(k, v)]
  | (k0, v0) :: rest, k, v =>
      if k0 = k then (k, v) :: rest else (k0, v0) :: dictSet rest k v

/-- The storage dict of app/storage.py. -/
def Store : Type := List (String × TransmissionState)

/-- InMemoryTransmissionStorage.get. -/
def storageGet (s : Store) (transmission_id : String) : Option TransmissionState :=
  List.lookup transmission_id s

/-- InMemoryTransmissionStorage.create: unconditional overwrite. -/
def storageCreate (s : Store) (t : TransmissionState) : Store :=
  dictSet s t.id t

/-- InMemoryTransmissionStorage.update: writes only when the id exists. -/
def storageUpdate (s : Store) (t : TransmissionState) : Store :=
  if (List.lookup t.id s).isSome then dictSet s t.id t else s

/-- The supported_features_for_poc set of init_transmission in
app/handlers.py: the statically configured server-side feature subset. -/
def supported_features_for_poc : List FeatureToggle :=
  [.resend, .ttl, .multistream, .pull]

/-- Step 4 of init_transmission: features_enabled starts as [CORE] and each
requested feature in supported_features_for_poc is appended in request
order. -/
def negotiatedFeatures (features_supported : List FeatureToggle) : List FeatureToggle :=
  FeatureToggle.core ::
    features_supported.filter (fun f => decide (f ∈ supported_features_for_poc))

/-- Step 5 of init_transmission: one fresh StreamState per requested stream
id, keyed by the id. -/
def initStreamStates (streams_requested : List String) : List (String × StreamState) :=
  streams_requested.foldl (fun d sid => dictSet d sid ⟨sid, ∅, none⟩) []

/-- The response headers of init_transmission (step 7), as typed fields. -/
structure InitResponse where
  transmission_id : String
  features_enabled : List FeatureToggle
  accepted_streams : Option (List String)
  ttl : Option ℤ
  max_packet_size : Option ℤ
  chunk_size : Option ℤ
deriving DecidableEq

/-- Step 7 of init_transmission: X-Features-Enabled always echoes the
features_enabled list computed in this call; X-Accepted-Streams is present
only when streams were requested in this call; the size and TTL headers come
from the stored state and are emitted only when truthy. -/
def mkInitResponse (transmission_state : TransmissionState)
    (features_enabled : List FeatureToggle)
    (streams_requested : List String) : InitResponse :=
  { transmission_id := transmission_state.id
    features_enabled := features_enabled
    accepted_streams := if streams_requested ≠ [] then some streams_requested else none
    ttl := if intTruthy transmission_state.ttl_seconds then transmission_state.ttl_seconds else none
    max_packet_size :=
      if intTruthy transmission_state.max_packet_size then transmission_state.max_packet_size
      else none
    chunk_size :=
      if intTruthy transmission_state.chunk_size then transmission_state.chunk_size else none }

/-- Outcome of init_transmission: the 400 on a bad session type, or 200 with
the response headers, paired with the store left behind. -/
inductive InitResult
  | invalidSessionType
  | ok (resp : InitResponse) (store : Store)

/-- Step 6 of init_transmission, creation case: the freshly constructed
TransmissionState, with created_at and last_received_time both set to the
negotiation time. -/
def newTransmissionState (transmission_id x_client_id : String)
    (stream_states : List (String × StreamState))
    (features_enabled : List FeatureToggle) (x_ttl : Option ℤ)
    (x_session_type : String) (x_max_packet_size x_chunk_size : Option ℤ)
    (now : ℚ) : TransmissionState :=
  { id := transmission_id
    client_id := x_client_id
    streams := stream_states
    features_enabled := features_enabled
    ttl_seconds := x_ttl
    created_at := now
    last_received_time := now
    session_type := x_session_type
    max_packet_size := x_max_packet_size
    chunk_size := x_chunk_size }

/-- init_transmission from app/handlers.py. Header parsing is done by the
transport layer, so the requested features arrive as a list and the
requested streams as a list of ids; generated_id stands for the fresh
generate_uuid7() value and now for time.time(). A client-supplied id that is
None or empty is falsy and triggers generation; a supplied id not in the
store creates a session under that exact id; a supplied id that is found
resumes: only last_received_time is rewritten, nothing is renegotiated. -/
def init_transmission (store : Store) (x_client_id : String)
    (features_supported : List FeatureToggle) (x_session_type : String)
    (x_transmission_id : Option String) (streams_requested : List String)
    (x_ttl x_max_packet_size x_chunk_size : Option ℤ)
    (generated_id : String) (now : ℚ) : InitResult :=
  if x_session_type ∉ (["stateful", "stateless"] : List String) then .invalidSessionType
  else
    let idTruthy : Bool :=
      match x_transmission_id with
      | none => false
      | some s => s != ""
    let transmission_id :=
      if idTruthy then x_transmission_id.getD "" else generated_id
    let existing_transmission :=
      if idTruthy then storageGet store transmission_id else none
    let features_enabled := negotiatedFeatures features_supported
    let stream_states := initStreamStates streams_requested
    match existing_transmission with
    | none =>
        let transmission_state :=
          newTransmissionState transmission_id x_client_id stream_states
            features_enabled x_ttl x_session_type x_max_packet_size x_chunk_size now
        .ok (mkInitResponse transmission_state features_enabled streams_requested)
          (storageCreate store transmission_state)
    | some ex =>
        let ex2 := { ex with last_received_time := now }
        .ok (mkInitResponse ex2 features_enabled streams_requested)
          (storageUpdate store ex2)

/-- Outcome of transmit_chunk: 404, the stream-control 200, the 400 on an
unknown stream, the 410 on TTL expiry, the 400 on a bad header combination
(carrying the missing_parts list), or 209 with a payload of the given number
of bytes. -/
inductive TransmitResult
  | notFound
  | controlAck
  | invalidStream (stream_id : String)
  | expired
  | invalidHeaders (missing : List String)
  | chunkOk (payload_bytes : ℕ)
deriving DecidableEq

/-- The TTL expiry check of transmit_chunk (step 2 of the chunk scenario):
runs only when ttl_seconds is truthy, and fires when elapsed time since
creation strictly exceeds the TTL. -/
def expiredCheck (ttl_seconds : Option ℤ) (created_at now : ℚ) : Bool :=
  match ttl_seconds with
  | none => false
  | some t => if t = 0 then false else decide ((t : ℚ) < now - created_at)

/-- The effective chunk size of transmit_chunk (step 3 of the chunk
scenario): chunk_size or 4096, then clamped down to max_packet_size when
that is truthy and strictly smaller. -/
def effectiveChunkSize (chunk_size max_packet_size : Option ℤ) : ℤ :=
  let c : ℤ :=
    match chunk_size with
    | some cs => if cs = 0 then 4096 else cs
    | none => 4096
  match max_packet_size with
  | some m => if m ≠ 0 ∧ m < c then m else c
  | none => c

/-- The missing_parts list built in scenario 3 of transmit_chunk. -/
def missingParts (x_stream_id : Option String) (x_packet_id : Option ℤ)
    (x_stream_control : Option String) : List String :=
  if x_stream_id = none ∧ x_packet_id = none ∧ x_stream_control = none then
    ["either (X-Stream-ID and X-Packet-ID) or (X-Stream-Control)"]
  else
    (if x_stream_id = none then ["X-Stream-ID"] else []) ++
    (if x_packet_id = none then ["X-Packet-ID"] else [])

/-- transmit_chunk from app/handlers.py, with time.time() passed in as now.
The presence of X-Stream-Control selects the stream-control scenario before
the chunk headers are even looked at; the chunk scenario validates the
stream, then the TTL, and only then records the chunk and refreshes
last_received_time; every failing path leaves the store untouched. -/
def transmit_chunk (store : Store) (x_transmission_id : String)
    (x_stream_id : Option String) (x_packet_id : Option ℤ)
    (x_stream_control : Option String) (now : ℚ) : TransmitResult × Store :=
  match storageGet store x_transmission_id with
  | none => (.notFound, store)
  | some transmission_state =>
    match x_stream_control with
    | some _ => (.controlAck, store)
    | none =>
      match x_stream_id, x_packet_id with
      | some sid, some pid =>
          match List.lookup sid transmission_state.streams with
          | none => (.invalidStream sid, store)
          | some stream_state =>
              if expiredCheck transmission_state.ttl_seconds
                  transmission_state.created_at now then
                (.expired, store)
              else
                let chunk_size :=
                  effectiveChunkSize transmission_state.chunk_size
                    transmission_state.max_packet_size
                let stream_state2 :=
                  { stream_state with
                      received_chunks := insert pid stream_state.received_chunks }
                let transmission_state2 :=
                  { transmission_state with
                      streams := dictSet transmission_state.streams sid stream_state2
                      last_received_time := now }
                (.chunkOk chunk_size.toNat, storageUpdate store transmission_state2)
      | _, _ =>
          (.invalidHeaders (missingParts x_stream_id x_packet_id x_stream_control), store)

/-- Outcome of get_transmission_status. -/
inductive StatusResult
  | notFound
  | ok (report : StatusReport)
deriving DecidableEq

/-- get_transmission_status from app/handlers.py. -/
def get_transmission_status (store : Store) (transmission_id : String)
    (now : ℚ) : StatusResult :=
  match storageGet store transmission_id with
  | none => .notFound
  | some transmission_state => .ok (transmission_state.get_status now)

/-- Recording one received chunk on a stream, the
stream_state.received_chunks.add(x_packet_id) mutation of transmit_chunk. -/
def recordChunk (st : StreamState) (n : ℤ) : StreamState :=
  { st with received_chunks := insert n st.received_chunks }

/-- Classification of the transmit_chunk outcomes that are failures. -/
def TransmitResult.isError : TransmitResult → Bool
  | .notFound => true
  | .invalidStream _ => true
  | .expired => true
  | .invalidHeaders _ => true
  | .controlAck => false
  | .chunkOk _ => false

/-! Helper lemmas about the association-list dict, the fold of record
operations, and the Python max. -/

theorem lookup_dictSet_self {α : Type} (d : List (String × α)) (k : String) (v : α) :
    List.lookup k (dictSet d k v) = some v := by
  induction d with
  | nil => simp [dictSet, List.lookup]
  | cons p rest ih =>
    obtain ⟨k0, v0⟩ := p
    by_cases h : k0 = k
    · simp [dictSet, h, List.lookup]
    · simp only [dictSet, if_neg h, List.lookup]
      have : (k == k0) = false := by
        exact beq_false_of_ne fun hk => h hk.symm
      rw [this]
      exact ih

theorem lookup_dictSet_ne {α : Type} (d : List (String × α)) (k k2 : String) (v : α)
    (h : k2 ≠ k) : List.lookup k2 (dictSet d k v) = List.lookup k2 d := by
  induction d with
  | nil =>
    simp only [dictSet, List.lookup]
    rw [beq_false_of_ne h]
  | cons p rest ih =>
    obtain ⟨k0, v0⟩ := p
    by_cases hk : k0 = k
    · subst hk
      simp only [dictSet, if_pos rfl, List.lookup]
      rw [beq_false_of_ne h]
    · simp only [dictSet, if_neg hk, List.lookup]
      cases hbk : (k2 == k0) with
      | true => rfl
      | false => exact ih

theorem mem_foldl_insert (ops : List ℤ) (s : Finset ℤ) (n : ℤ) :
    n ∈ ops.foldl (fun t m => insert m t) s ↔ n ∈ s ∨ n ∈ ops := by
  induction ops generalizing s with
  | nil => simp
  | cons a l ih =>
    rw [List.foldl_cons, ih]
    simp only [Finset.mem_insert, List.mem_cons]
    tauto

theorem received_foldl (ops : List ℤ) (st : StreamState) :
    (ops.foldl recordChunk st).received_chunks =
      ops.foldl (fun t m => insert m t) st.received_chunks := by
  induction ops generalizing st with
  | nil => rfl
  | cons a l ih =>
    rw [List.foldl_cons, List.foldl_cons, ih]
    rfl

theorem le_foldl_max (l : List ℤ) : ∀ a : ℤ, a ≤ l.foldl max a := by
  induction l with
  | nil => intro a; exact le_refl a
  | cons b l ih =>
    intro a
    exact le_trans (le_max_left a b) (ih (max a b))

theorem mem_le_foldl_max (l : List ℤ) : ∀ a x : ℤ, x ∈ l → x ≤ l.foldl max a := by
  induction l with
  | nil => intro a x hx; cases hx
  | cons b l ih =>
    intro a x hx
    rcases List.mem_cons.mp hx with h | h
    · subst h
      exact le_trans (le_max_right a x) (le_foldl_max l (max a x))
    · exact ih (max a b) x h

theorem foldl_max_mem (l : List ℤ) : ∀ a : ℤ, l.foldl max a = a ∨ l.foldl max a ∈ l := by
  induction l with
  | nil => intro a; exact Or.inl rfl
  | cons b l ih =>
    intro a
    rcases ih (max a b) with h | h
    · rw [List.foldl_cons, h]
      rcases max_choice a b with hc | hc
      · exact Or.inl hc
      · rw [hc]
        exact Or.inr (List.mem_cons_self b l)
    · rw [List.foldl_cons]
      exact Or.inr (List.mem_cons_of_mem b h)

theorem le_listMax {l : List ℤ} {x : ℤ} (h : x ∈ l) : x ≤ listMax l := by
  cases l with
  | nil => cases h
  | cons a l =>
    rcases List.mem_cons.mp h with h1 | h1
    · subst h1; exact le_foldl_max l x
    · exact mem_le_foldl_max l a x h1

theorem listMax_mem {l : List ℤ} (h : l ≠ []) : listMax l ∈ l := by
  cases l with
  | nil => exact absurd rfl h
  | cons a l =>
    show l.foldl max a ∈ a :: l
    rcases foldl_max_mem l a with h1 | h1
    · rw [h1]
      exact List.mem_cons_self a l
    · exact List.mem_cons_of_mem a h1

theorem mem_missingList (s : Finset ℤ) (n : ℤ) :
    n ∈ missingList s ↔ 0 ≤ n ∧ n ≤ listMax (receivedList s) ∧ n ∉ s := by
  unfold missingList
  split
  next h =>
    simp only [Finset.mem_sort, Finset.mem_sdiff, Finset.mem_Icc]
    tauto
  next h =>
    simp only [List.not_mem_nil, false_iff]
    rintro ⟨h0, hle, -⟩
    exact h (le_trans h0 hle)

theorem sort_toFinset_eq {l : List ℤ} (hnd : l.Nodup) (hs : l.Sorted (· ≤ ·)) :
    l.toFinset.sort (· ≤ ·) = l := (List.toFinset_sort _ hnd).mpr hs

/-- Claim C1: over any sequence of record-received operations starting from
a fresh stream, the status report lists received as the ascending sorted
distinct recorded chunk numbers (recording is idempotent), and missing as
the ascending list of the integers between 0 and the greatest recorded
number that were never recorded; with nothing recorded, missing is empty;
and in particular recording 0, 1, 3, 3, 7 yields received [0, 1, 3, 7] and
missing [2, 4, 5, 6]. -/
theorem missing_report_correct (sid : String) (total : Option ℤ) (ops : List ℤ) :
    (streamStatus (ops.foldl recordChunk ⟨sid, ∅, total⟩)).received.Sorted (· < ·) ∧
    (∀ n : ℤ, n ∈ (streamStatus (ops.foldl recordChunk ⟨sid, ∅, total⟩)).received ↔ n ∈ ops) ∧
    (streamStatus (ops.foldl recordChunk ⟨sid, ∅, total⟩)).missing.Sorted (· < ·) ∧
    (∀ n : ℤ, n ∈ (streamStatus (ops.foldl recordChunk ⟨sid, ∅, total⟩)).missing ↔
      0 ≤ n ∧ n ≤ listMax (streamStatus (ops.foldl recordChunk ⟨sid, ∅, total⟩)).received ∧
        n ∉ ops) ∧
    (∀ n : ℤ, n ∈ ops →
      n ≤ listMax (streamStatus (ops.foldl recordChunk ⟨sid, ∅, total⟩)).received) ∧
    (ops ≠ [] →
      listMax (streamStatus (ops.foldl recordChunk ⟨sid, ∅, total⟩)).received ∈ ops) ∧
    (ops = [] → (streamStatus (ops.foldl recordChunk ⟨sid, ∅, total⟩)).missing = []) ∧
    (∀ (st : StreamState) (n : ℤ), recordChunk (recordChunk st n) n = recordChunk st n) ∧
    streamStatus (([0, 1, 3, 3, 7] : List ℤ).foldl recordChunk ⟨"s", ∅, none⟩) =
      ⟨[0, 1, 3, 7], [2, 4, 5, 6], none⟩ := by
  have hmem : ∀ n : ℤ, n ∈ (ops.foldl recordChunk ⟨sid, ∅, total⟩).received_chunks ↔ n ∈ ops := by
    intro n
    rw [received_foldl]
    rw [mem_foldl_insert]
    simp
  have hrecmem : ∀ n : ℤ,
      n ∈ (streamStatus (ops.foldl recordChunk ⟨sid, ∅, total⟩)).received ↔ n ∈ ops := by
    intro n
    rw [show (streamStatus (ops.foldl recordChunk ⟨sid, ∅, total⟩)).received =
      receivedList (ops.foldl recordChunk ⟨sid, ∅, total⟩).received_chunks from rfl]
    rw [receivedList, Finset.mem_sort]
    exact hmem n
  refine ⟨Finset.sort_sorted_lt _, hrecmem, ?_, ?_, ?_, ?_, ?_, ?_, ?_⟩
  · show (missingList _).Sorted (· < ·)
    unfold missingList
    split
    · exact Finset.sort_sorted_lt _
    · exact List.sorted_nil
  · intro n
    rw [show (streamStatus (ops.foldl recordChunk ⟨sid, ∅, total⟩)).missing =
      missingList (ops.foldl recordChunk ⟨sid, ∅, total⟩).received_chunks from rfl]
    rw [mem_missingList]
    rw [hmem n]
    rfl
  · intro n hn
    exact le_listMax ((hrecmem n).mpr hn)
  · intro hne
    obtain ⟨x, hx⟩ := List.exists_mem_of_ne_nil ops hne
    have hxr : x ∈ (streamStatus (ops.foldl recordChunk ⟨sid, ∅, total⟩)).received :=
      (hrecmem x).mpr hx
    have hrne : (streamStatus (ops.foldl recordChunk ⟨sid, ∅, total⟩)).received ≠ [] :=
      List.ne_nil_of_mem hxr
    exact (hrecmem _).mp (listMax_mem hrne)
  · intro hops
    subst hops
    show missingList (∅ : Finset ℤ) = []
    unfold missingList
    rw [receivedList, Finset.sort_empty]
    rfl
  · intro st n
    simp [recordChunk, Finset.insert_idem]
  · have hF : (([0, 1, 3, 3, 7] : List ℤ).foldl recordChunk ⟨"s", ∅, none⟩).received_chunks =
        ([0, 1, 3, 7] : List ℤ).toFinset := by decide
    have h1 : receivedList (([0, 1, 3, 7] : List ℤ).toFinset) = [0, 1, 3, 7] :=
      sort_toFinset_eq (by decide) (by decide)
    have h2 : missingList (([0, 1, 3, 7] : List ℤ).toFinset) = [2, 4, 5, 6] := by
      unfold missingList
      rw [h1]
      rw [if_pos (by decide : (0:ℤ) ≤ listMax [0, 1, 3, 7])]
      have hd : (Finset.Icc (0:ℤ) (listMax [0, 1, 3, 7])) \ (([0, 1, 3, 7] : List ℤ).toFinset) =
          ([2, 4, 5, 6] : List ℤ).toFinset := by decide
      rw [hd]
      exact sort_toFinset_eq (by decide) (by decide)
    show StreamStatus.mk
      (receivedList (([0, 1, 3, 3, 7] : List ℤ).foldl recordChunk ⟨"s", ∅, none⟩).received_chunks)
      (missingList (([0, 1, 3, 3, 7] : List ℤ).foldl recordChunk ⟨"s", ∅, none⟩).received_chunks)
      ((([0, 1, 3, 3, 7] : List ℤ).foldl recordChunk ⟨"s", ∅, none⟩).total_chunks) = _
    rw [hF, h1, h2]
    rfl

/-! Equation lemmas for init_transmission, one per control-flow path. -/

theorem init_transmission_invalid_type (store : Store) (client : String)
    (fs : List FeatureToggle) (st_type : String) (tid : Option String)
    (streams : List String) (ttl mps cs : Option ℤ) (gen : String) (now : ℚ)
    (hty : st_type ∉ (["stateful", "stateless"] : List String)) :
    init_transmission store client fs st_type tid streams ttl mps cs gen now =
      .invalidSessionType := by
  unfold init_transmission
  rw [if_pos hty]

theorem init_transmission_fresh (store : Store) (client : String)
    (fs : List FeatureToggle) (st_type : String)
    (streams : List String) (ttl mps cs : Option ℤ) (gen : String) (now : ℚ)
    (hty : st_type ∈ (["stateful", "stateless"] : List String)) :
    init_transmission store client fs st_type none streams ttl mps cs gen now =
      .ok (mkInitResponse
            (newTransmissionState gen client (initStreamStates streams)
              (negotiatedFeatures fs) ttl st_type mps cs now)
            (negotiatedFeatures fs) streams)
        (storageCreate store
          (newTransmissionState gen client (initStreamStates streams)
            (negotiatedFeatures fs) ttl st_type mps cs now)) := by
  unfold init_transmission
  rw [if_neg (by simp [hty])]
  rfl

theorem init_transmission_empty_id (store : Store) (client : String)
    (fs : List FeatureToggle) (st_type : String)
    (streams : List String) (ttl mps cs : Option ℤ) (gen : String) (now : ℚ) :
    init_transmission store client fs st_type (some "") streams ttl mps cs gen now =
      init_transmission store client fs st_type none streams ttl mps cs gen now := by
  unfold init_transmission
  rfl

theorem init_transmission_create_with_id (store : Store) (client : String)
    (fs : List FeatureToggle) (st_type : String) (s : String)
    (streams : List String) (ttl mps cs : Option ℤ) (gen : String) (now : ℚ)
    (hty : st_type ∈ (["stateful", "stateless"] : List String)) (hs : s ≠ "")
    (hget : storageGet store s = none) :
    init_transmission store client fs st_type (some s) streams ttl mps cs gen now =
      .ok (mkInitResponse
            (newTransmissionState s client (initStreamStates streams)
              (negotiatedFeatures fs) ttl st_type mps cs now)
            (negotiatedFeatures fs) streams)
        (storageCreate store
          (newTransmissionState s client (initStreamStates streams)
            (negotiatedFeatures fs) ttl st_type mps cs now)) := by
  unfold init_transmission
  rw [if_neg (by simp [hty])]
  have hb : (s != "") = true := by simpa using hs
  simp only [hb, if_true, Option.getD_some, hget]

theorem init_transmission_resume (store : Store) (client : String)
    (fs : List FeatureToggle) (st_type : String) (s : String)
    (streams : List String) (ttl mps cs : Option ℤ) (gen : String) (now : ℚ)
    (ex : TransmissionState)
    (hty : st_type ∈ (["stateful", "stateless"] : List String)) (hs : s ≠ "")
    (hget : storageGet store s = some ex) :
    init_transmission store client fs st_type (some s) streams ttl mps cs gen now =
      .ok (mkInitResponse { ex with last_received_time := now }
            (negotiatedFeatures fs) streams)
        (storageUpdate store { ex with last_received_time := now }) := by
  unfold init_transmission
  rw [if_neg (by simp [hty])]
  have hb : (s != "") = true := by simpa using hs
  simp only [hb, if_true, Option.getD_some, hget]

/-- Claim C2: the enabled-feature set computed at every negotiation always
contains core, and a non-core feature is enabled exactly when it is both
requested and in the statically configured PoC-supported set; hence the set
is contained in the supported set plus core. Every successful negotiation
reports exactly this set in its response, and a fresh negotiation stores
exactly this set in the created session. -/
theorem enabled_features_correct (features_supported : List FeatureToggle) :
    FeatureToggle.core ∈ negotiatedFeatures features_supported ∧
    (∀ f : FeatureToggle, f ≠ FeatureToggle.core →
      (f ∈ negotiatedFeatures features_supported ↔
        f ∈ features_supported ∧ f ∈ supported_features_for_poc)) ∧
    (∀ f ∈ negotiatedFeatures features_supported,
      f = FeatureToggle.core ∨ (f ∈ features_supported ∧ f ∈ supported_features_for_poc)) ∧
    (∀ (store : Store) (client st_type : String) (tid : Option String)
      (streams : List String) (ttl mps cs : Option ℤ) (gen : String) (now : ℚ)
      (resp : InitResponse) (store2 : Store),
      init_transmission store client features_supported st_type tid streams ttl mps cs gen now =
        .ok resp store2 → resp.features_enabled = negotiatedFeatures features_supported) ∧
    (∀ (store : Store) (client st_type : String) (streams : List String)
      (ttl mps cs : Option ℤ) (gen : String) (now : ℚ) (resp : InitResponse) (store2 : Store),
      init_transmission store client features_supported st_type none streams ttl mps cs gen now =
        .ok resp store2 →
      ∃ ts : TransmissionState, storageGet store2 gen = some ts ∧
        ts.features_enabled = negotiatedFeatures features_supported) := by
  have hgen : ∀ (store : Store) (client st_type : String) (tid : Option String)
      (streams : List String) (ttl mps cs : Option ℤ) (gen : String) (now : ℚ)
      (resp : InitResponse) (store2 : Store),
      init_transmission store client features_supported st_type tid streams ttl mps cs gen now =
        .ok resp store2 → resp.features_enabled = negotiatedFeatures features_supported := by
    intro store client st_type tid streams ttl mps cs gen now resp store2 h
    by_cases hty : st_type ∈ (["stateful", "stateless"] : List String)
    · cases tid with
      | none =>
        rw [init_transmission_fresh store client features_supported st_type streams
          ttl mps cs gen now hty] at h
        injection h with h1 h2
        subst h1
        rfl
      | some s =>
        by_cases hs : s = ""
        · subst hs
          rw [init_transmission_empty_id, init_transmission_fresh store client
            features_supported st_type streams ttl mps cs gen now hty] at h
          injection h with h1 h2
          subst h1
          rfl
        · cases hget : storageGet store s with
          | none =>
            rw [init_transmission_create_with_id store client features_supported st_type s
              streams ttl mps cs gen now hty hs hget] at h
            injection h with h1 h2
            subst h1
            rfl
          | some ex =>
            rw [init_transmission_resume store client features_supported st_type s
              streams ttl mps cs gen now ex hty hs hget] at h
            injection h with h1 h2
            subst h1
            rfl
    · rw [init_transmission_invalid_type store client features_supported st_type tid
        streams ttl mps cs gen now hty] at h
      cases h
  refine ⟨?_, ?_, ?_, hgen, ?_⟩
  · simp [negotiatedFeatures]
  · intro f hf
    simp [negotiatedFeatures, List.mem_cons, List.mem_filter, hf]
  · intro f hfm
    rcases List.mem_cons.mp hfm with h | h
    · exact Or.inl h
    · exact Or.inr (by simpa using List.mem_filter.mp h)
  · intro store client st_type streams ttl mps cs gen now resp store2 h
    by_cases hty : st_type ∈ (["stateful", "stateless"] : List String)
    · rw [init_transmission_fresh store client features_supported st_type streams
        ttl mps cs gen now hty] at h
      injection h with h1 h2
      subst h2
      exact ⟨_, lookup_dictSet_self store gen _, rfl⟩
    · rw [init_transmission_invalid_type store client features_supported st_type none
        streams ttl mps cs gen now hty] at h
      cases h

/-! Equation lemmas for transmit_chunk, one per control-flow path. -/

theorem transmit_chunk_notFound (store : Store) (tid : String)
    (sid : Option String) (pid : Option ℤ) (ctl : Option String) (now : ℚ)
    (hget : storageGet store tid = none) :
    transmit_chunk store tid sid pid ctl now = (.notFound, store) := by
  unfold transmit_chunk
  rw [hget]

theorem transmit_chunk_control (store : Store) (tid : String)
    (sid : Option String) (pid : Option ℤ) (c : String) (now : ℚ)
    (ts : TransmissionState) (hget : storageGet store tid = some ts) :
    transmit_chunk store tid sid pid (some c) now = (.controlAck, store) := by
  unfold transmit_chunk
  rw [hget]

theorem transmit_chunk_missing_headers (store : Store) (tid : String)
    (sid : Option String) (pid : Option ℤ) (now : ℚ)
    (ts : TransmissionState) (hget : storageGet store tid = some ts)
    (hmiss : sid = none ∨ pid = none) :
    transmit_chunk store tid sid pid none now =
      (.invalidHeaders (missingParts sid pid none), store) := by
  unfold transmit_chunk
  rw [hget]
  cases sid with
  | none =>
    cases pid with
    | none => rfl
    | some p => rfl
  | some s =>
    cases pid with
    | none => rfl
    | some p =>
      rcases hmiss with h | h
      · cases h
      · cases h

theorem transmit_chunk_badStream (store : Store) (tid sid : String) (pid : ℤ)
    (now : ℚ) (ts : TransmissionState) (hget : storageGet store tid = some ts)
    (hstream : List.lookup sid ts.streams = none) :
    transmit_chunk store tid (some sid) (some pid) none now =
      (.invalidStream sid, store) := by
  unfold transmit_chunk
  rw [hget]
  dsimp only
  rw [hstream]

theorem transmit_chunk_expired (store : Store) (tid sid : String) (pid : ℤ)
    (now : ℚ) (ts : TransmissionState) (st : StreamState)
    (hget : storageGet store tid = some ts)
    (hstream : List.lookup sid ts.streams = some st)
    (hexp : expiredCheck ts.ttl_seconds ts.created_at now = true) :
    transmit_chunk store tid (some sid) (some pid) none now = (.expired, store) := by
  unfold transmit_chunk
  rw [hget]
  dsimp only
  rw [hstream]
  dsimp only
  rw [if_pos hexp]

theorem transmit_chunk_success (store : Store) (tid sid : String) (pid : ℤ)
    (now : ℚ) (ts : TransmissionState) (st : StreamState)
    (hget : storageGet store tid = some ts)
    (hstream : List.lookup sid ts.streams = some st)
    (hexp : expiredCheck ts.ttl_seconds ts.created_at now = false) :
    transmit_chunk store tid (some sid) (some pid) none now =
      ((.chunkOk (effectiveChunkSize ts.chunk_size ts.max_packet_size).toNat),
        storageUpdate store
          { ts with
              streams := dictSet ts.streams sid
                { st with received_chunks := insert pid st.received_chunks }
              last_received_time := now }) := by
  unfold transmit_chunk
  rw [hget]
  dsimp only
  rw [hstream]
  dsimp only
  rw [if_neg (by simp [hexp])]

/-- Claim C6: a chunk exchange naming an undeclared stream fails with the
invalid-stream error and returns the store unchanged, and more generally
every failing outcome of transmit_chunk (not-found, invalid stream, expiry,
bad header combination) leaves the store exactly as it was, so no partial
mutation is committed before a validation failure. -/
theorem transmit_validation_before_mutation (store : Store) (tid : String)
    (sid : Option String) (pid : Option ℤ) (ctl : Option String) (now : ℚ) :
    ((transmit_chunk store tid sid pid ctl now).1.isError = true →
      (transmit_chunk store tid sid pid ctl now).2 = store) ∧
    (∀ (ts : TransmissionState) (s : String) (p : ℤ),
      storageGet store tid = some ts → ctl = none → sid = some s → pid = some p →
      List.lookup s ts.streams = none →
      transmit_chunk store tid sid pid ctl now = (.invalidStream s, store)) := by
  constructor
  · cases hget : storageGet store tid with
    | none =>
      rw [transmit_chunk_notFound store tid sid pid ctl now hget]
      intro
      rfl
    | some ts =>
      cases ctl with
      | some c =>
        rw [transmit_chunk_control store tid sid pid c now ts hget]
        intro
        rfl
      | none =>
        cases sid with
        | none =>
          rw [transmit_chunk_missing_headers store tid none pid now ts hget (Or.inl rfl)]
          intro
          rfl
        | some s =>
          cases pid with
          | none =>
            rw [transmit_chunk_missing_headers store tid (some s) none now ts hget
              (Or.inr rfl)]
            intro
            rfl
          | some p =>
            cases hstream : List.lookup s ts.streams with
            | none =>
              rw [transmit_chunk_badStream store tid s p now ts hget hstream]
              intro
              rfl
            | some st =>
              cases hexp : expiredCheck ts.ttl_seconds ts.created_at now with
              | true =>
                rw [transmit_chunk_expired store tid s p now ts st hget hstream hexp]
                intro
                rfl
              | false =>
                rw [transmit_chunk_success store tid s p now ts st hget hstream hexp]
                intro h
                cases h
  · intro ts s p hget hctl hsid hpid hstream
    subst hctl
    subst hsid
    subst hpid
    exact transmit_chunk_badStream store tid s p now ts hget hstream

/-- Claim C3: against a stored session whose TTL is a set positive number of
seconds, a chunk exchange made after the TTL has elapsed since creation
fails with the expired error and leaves the store unchanged, and a status
query at the same or any later time still succeeds and reports alive as
false. -/
theorem ttl_expiry_on_transmit (store : Store) (tid sid : String) (pid : ℤ)
    (ts : TransmissionState) (st : StreamState) (t : ℤ) (now now2 : ℚ)
    (hget : storageGet store tid = some ts)
    (hstream : List.lookup sid ts.streams = some st)
    (httl : ts.ttl_seconds = some t) (hpos : 0 < t)
    (helapsed : (t : ℚ) < now - ts.created_at)
    (hlater : now ≤ now2) :
    transmit_chunk store tid (some sid) (some pid) none now = (.expired, store) ∧
    get_transmission_status store tid now2 = .ok (ts.get_status now2) ∧
    (ts.get_status now2).alive = false := by
  have hexp : expiredCheck ts.ttl_seconds ts.created_at now = true := by
    rw [httl]
    unfold expiredCheck
    dsimp only
    rw [if_neg (by omega)]
    exact decide_eq_true helapsed
  have halive : statusAlive ts.ttl_seconds ts.created_at now2 = false := by
    rw [httl]
    unfold statusAlive
    dsimp only
    rw [if_neg (by omega)]
    apply decide_eq_false
    have hmono : now - ts.created_at ≤ now2 - ts.created_at :=
      sub_le_sub_right hlater ts.created_at
    exact not_le.mpr (lt_of_lt_of_le helapsed hmono)
  refine ⟨transmit_chunk_expired store tid sid pid now ts st hget hstream hexp, ?_, halive⟩
  unfold get_transmission_status
  rw [hget]

/-- Witness for claim C3 at the spec example: TTL of one second, exchange
attempted two seconds after creation. -/
theorem ttl_expiry_on_transmit_witness :
    transmit_chunk
        [("T", ⟨"T", "c", [("s", ⟨"s", ∅, none⟩)], [.core], some 1, 0, 0, "stateful",
          none, none⟩)] "T" (some "s") (some 0) none 2 =
      (.expired,
        [("T", ⟨"T", "c", [("s", ⟨"s", ∅, none⟩)], [.core], some 1, 0, 0, "stateful",
          none, none⟩)]) ∧
    get_transmission_status
        [("T", ⟨"T", "c", [("s", ⟨"s", ∅, none⟩)], [.core], some 1, 0, 0, "stateful",
          none, none⟩)] "T" 2 =
      .ok ((⟨"T", "c", [("s", ⟨"s", ∅, none⟩)], [.core], some 1, 0, 0, "stateful",
          none, none⟩ : TransmissionState).get_status 2) ∧
    ((⟨"T", "c", [("s", ⟨"s", ∅, none⟩)], [.core], some 1, 0, 0, "stateful",
          none, none⟩ : TransmissionState).get_status 2).alive = false :=
  ttl_expiry_on_transmit
    [("T", ⟨"T", "c", [("s", ⟨"s", ∅, none⟩)], [.core], some 1, 0, 0, "stateful",
      none, none⟩)] "T" "s" 0 _ _ 1 2 2 rfl rfl rfl (by norm_num)
    (by norm_num) (by norm_num)

/-- Claim C8: the liveness value computed by the status snapshot is exactly
the negation of the expiry predicate used by the chunk-exchange path over
the same TTL and creation timestamp, and consequently a status query
reports alive false at a given time exactly when a well-formed chunk
exchange at that time fails with the expired error. -/
theorem status_alive_iff_transmit_expired (ttl_in : Option ℤ) (created now : ℚ)
    (store : Store) (tid sid : String) (pid : ℤ) (ts : TransmissionState) :
    (statusAlive ttl_in created now = !expiredCheck ttl_in created now) ∧
    ((ts.get_status now).alive = !expiredCheck ts.ttl_seconds ts.created_at now) ∧
    (storageGet store tid = some ts → (List.lookup sid ts.streams).isSome = true →
      ((ts.get_status now).alive = false ↔
        (transmit_chunk store tid (some sid) (some pid) none now).1 = .expired)) := by
  have key : ∀ (o : Option ℤ) (c n : ℚ), statusAlive o c n = !expiredCheck o c n := by
    intro o c n
    unfold statusAlive expiredCheck
    cases o with
    | none => rfl
    | some t =>
      dsimp only
      by_cases ht : t = 0
      · rw [if_pos ht, if_pos ht]
        rfl
      · rw [if_neg ht, if_neg ht]
        rw [← decide_not]
        simp [not_lt]
  refine ⟨key ttl_in created now, key ts.ttl_seconds ts.created_at now, ?_⟩
  intro hget hsome
  obtain ⟨st, hst⟩ := Option.isSome_iff_exists.mp hsome
  have halive : (ts.get_status now).alive = !expiredCheck ts.ttl_seconds ts.created_at now :=
    key ts.ttl_seconds ts.created_at now
  cases hexp : expiredCheck ts.ttl_seconds ts.created_at now with
  | true =>
    rw [transmit_chunk_expired store tid sid pid now ts st hget hst hexp]
    rw [halive, hexp]
    simp
  | false =>
    rw [transmit_chunk_success store tid sid pid now ts st hget hst hexp]
    rw [halive, hexp]
    simp

/-- Claim C10: a stored TTL of exactly 0 seconds behaves exactly like no TTL
at all, because the source tests truthiness: the expiry predicate is always
false (and coincides with the no-TTL predicate), no chunk exchange on such a
session ever fails with the expired error, and a status query reports alive
true and a null TTL. -/
theorem ttl_zero_behaves_as_no_ttl (ts : TransmissionState) (now created : ℚ)
    (store : Store) (tid : String) (sid : Option String) (pid : Option ℤ)
    (ctl : Option String)
    (httl : ts.ttl_seconds = some 0) (hget : storageGet store tid = some ts) :
    expiredCheck ts.ttl_seconds ts.created_at now = false ∧
    expiredCheck (some 0) created now = expiredCheck none created now ∧
    statusAlive (some 0) created now = statusAlive none created now ∧
    (transmit_chunk store tid sid pid ctl now).1 ≠ .expired ∧
    (ts.get_status now).alive = true ∧
    (ts.get_status now).ttl = none := by
  have hexp : expiredCheck ts.ttl_seconds ts.created_at now = false := by
    rw [httl]
    rfl
  refine ⟨hexp, rfl, rfl, ?_, ?_, ?_⟩
  · cases ctl with
    | some c =>
      rw [transmit_chunk_control store tid sid pid c now ts hget]
      intro h
      cases h
    | none =>
      cases sid with
      | none =>
        rw [transmit_chunk_missing_headers store tid none pid now ts hget (Or.inl rfl)]
        intro h
        cases h
      | some s =>
        cases pid with
        | none =>
          rw [transmit_chunk_missing_headers store tid (some s) none now ts hget
            (Or.inr rfl)]
          intro h
          cases h
        | some p =>
          cases hstream : List.lookup s ts.streams with
          | none =>
            rw [transmit_chunk_badStream store tid s p now ts hget hstream]
            intro h
            cases h
          | some st =>
            rw [transmit_chunk_success store tid s p now ts st hget hstream hexp]
            intro h
            cases h
  · show statusAlive ts.ttl_seconds ts.created_at now = true
    rw [httl]
    rfl
  · show (if intTruthy ts.ttl_seconds then ts.ttl_seconds else none) = none
    rw [httl]
    rfl

/-- Witness for claim C10: a session with TTL 0 queried long after
creation. -/
theorem ttl_zero_behaves_as_no_ttl_witness :
    expiredCheck
      (⟨"T", "c", [("s", ⟨"s", ∅, none⟩)], [.core], some 0, 0, 0, "stateful", none,
        none⟩ : TransmissionState).ttl_seconds
      (⟨"T", "c", [("s", ⟨"s", ∅, none⟩)], [.core], some 0, 0, 0, "stateful", none,
        none⟩ : TransmissionState).created_at 1000 = false ∧
    expiredCheck (some 0) 0 1000 = expiredCheck none 0 1000 ∧
    statusAlive (some 0) 0 1000 = statusAlive none 0 1000 ∧
    (transmit_chunk
        [("T", ⟨"T", "c", [("s", ⟨"s", ∅, none⟩)], [.core], some 0, 0, 0, "stateful",
          none, none⟩)] "T" (some "s") (some 0) none 1000).1 ≠ .expired ∧
    ((⟨"T", "c", [("s", ⟨"s", ∅, none⟩)], [.core], some 0, 0, 0, "stateful", none,
        none⟩ : TransmissionState).get_status 1000).alive = true ∧
    ((⟨"T", "c", [("s", ⟨"s", ∅, none⟩)], [.core], some 0, 0, 0, "stateful", none,
        none⟩ : TransmissionState).get_status 1000).ttl = none :=
  ttl_zero_behaves_as_no_ttl
    (⟨"T", "c", [("s", ⟨"s", ∅, none⟩)], [.core], some 0, 0, 0, "stateful", none,
      none⟩ : TransmissionState) 1000 0
    [("T", ⟨"T", "c", [("s", ⟨"s", ∅, none⟩)], [.core], some 0, 0, 0, "stateful",
      none, none⟩)] "T" (some "s") (some 0) none rfl rfl

/-- Counterexample to claim C4 as stated: a request carrying both a
stream-control directive and the full stream-id plus chunk-number pair does
not fail with the invalid-request error; the code acknowledges it as a
stream-control command. -/
theorem both_shapes_acknowledged :
    (transmit_chunk
        [("T", ⟨"T", "c", [("s", ⟨"s", ∅, none⟩)], [.core], none, 0, 0, "stateful",
          none, none⟩)] "T" (some "s") (some 0) (some "s=pause") 1).1 =
      .controlAck ∧
    ¬ ∃ missing : List String,
      (transmit_chunk
          [("T", ⟨"T", "c", [("s", ⟨"s", ∅, none⟩)], [.core], none, 0, 0, "stateful",
            none, none⟩)] "T" (some "s") (some 0) (some "s=pause") 1).1 =
        .invalidHeaders missing := by
  have hres : (transmit_chunk
      [("T", ⟨"T", "c", [("s", ⟨"s", ∅, none⟩)], [.core], none, 0, 0, "stateful",
        none, none⟩)] "T" (some "s") (some 0) (some "s=pause") 1).1 = .controlAck := rfl
  refine ⟨hres, ?_⟩
  rintro ⟨missing, hmiss⟩
  rw [hres] at hmiss
  cases hmiss

/-- Claim C4 amended: a present stream-control directive always selects the
stream-control scenario, even when the chunk pair is also present; with no
directive, an absent or incomplete chunk pair fails with the invalid-request
error whose missing-parts message names exactly the absent fields. -/
theorem transmit_shape_dispatch (store : Store) (tid : String)
    (sid : Option String) (pid : Option ℤ) (ctl : Option String) (now : ℚ)
    (ts : TransmissionState) (hget : storageGet store tid = some ts) :
    (∀ c : String, ctl = some c →
      transmit_chunk store tid sid pid ctl now = (.controlAck, store)) ∧
    (ctl = none → sid = none ∨ pid = none →
      transmit_chunk store tid sid pid ctl now =
        (.invalidHeaders (missingParts sid pid none), store)) ∧
    (sid = none → pid = none →
      missingParts sid pid none =
        ["either (X-Stream-ID and X-Packet-ID) or (X-Stream-Control)"]) ∧
    (sid = none → pid ≠ none → missingParts sid pid none = ["X-Stream-ID"]) ∧
    (sid ≠ none → pid = none → missingParts sid pid none = ["X-Packet-ID"]) := by
  refine ⟨?_, ?_, ?_, ?_, ?_⟩
  · intro c hc
    subst hc
    exact transmit_chunk_control store tid sid pid c now ts hget
  · intro hc hmiss
    subst hc
    exact transmit_chunk_missing_headers store tid sid pid now ts hget hmiss
  · intro hsid hpid
    subst hsid
    subst hpid
    rfl
  · intro hsid hpid
    subst hsid
    cases pid with
    | none => exact absurd rfl hpid
    | some p => rfl
  · intro hsid hpid
    subst hpid
    cases sid with
    | none => exact absurd rfl hsid
    | some s => rfl

/-- Witness for the amended claim C4: against a stored session, a request
with only the stream id fails naming the chunk-number header. -/
theorem transmit_shape_dispatch_witness :
    (∀ c : String, (some "go" : Option String) = some c →
      transmit_chunk
          [("T", ⟨"T", "c", [("s", ⟨"s", ∅, none⟩)], [.core], none, 0, 0, "stateful",
            none, none⟩)] "T" (some "s") none (some "go") 3 =
        (.controlAck,
          [("T", ⟨"T", "c", [("s", ⟨"s", ∅, none⟩)], [.core], none, 0, 0, "stateful",
            none, none⟩)])) ∧
    ((some "go" : Option String) = none → (some "s" : Option String) = none ∨
        (none : Option ℤ) = none →
      transmit_chunk
          [("T", ⟨"T", "c", [("s", ⟨"s", ∅, none⟩)], [.core], none, 0, 0, "stateful",
            none, none⟩)] "T" (some "s") none (some "go") 3 =
        (.invalidHeaders (missingParts (some "s") none none),
          [("T", ⟨"T", "c", [("s", ⟨"s", ∅, none⟩)], [.core], none, 0, 0, "stateful",
            none, none⟩)])) ∧
    ((some "s" : Option String) = none → (none : Option ℤ) = none →
      missingParts (some "s") none none =
        ["either (X-Stream-ID and X-Packet-ID) or (X-Stream-Control)"]) ∧
    ((some "s" : Option String) = none → (none : Option ℤ) ≠ none →
      missingParts (some "s") none none = ["X-Stream-ID"]) ∧
    ((some "s" : Option String) ≠ none → (none : Option ℤ) = none →
      missingParts (some "s") none none = ["X-Packet-ID"]) :=
  transmit_shape_dispatch
    [("T", ⟨"T", "c", [("s", ⟨"s", ∅, none⟩)], [.core], none, 0, 0, "stateful",
      none, none⟩)] "T" (some "s") none (some "go") 3
    (⟨"T", "c", [("s", ⟨"s", ∅, none⟩)], [.core], none, 0, 0, "stateful",
      none, none⟩ : TransmissionState) rfl

/-- The effective chunk size exactly as claim C5 words it: the negotiated
chunk size when present else the fixed default of 4096, taken down to the
negotiated max packet size when one is present and smaller. -/
def specEffectiveChunkSize (chunk_size max_packet_size : Option ℤ) : ℤ :=
  match max_packet_size with
  | some m =>
      if m < (match chunk_size with | some cs => cs | none => 4096) then m
      else (match chunk_size with | some cs => cs | none => 4096)
  | none => match chunk_size with | some cs => cs | none => 4096

/-- Counterexample to claim C5 as stated: with a negotiated chunk size of 0
the code falls back to the 4096-byte default (Python truthiness), while the
claim predicts a payload of min(0, nothing) = 0 bytes; and with a negotiated
chunk size of -5 the payload is empty while the claim predicts -5 bytes. -/
theorem chunk_size_zero_payload :
    (transmit_chunk
        [("T", ⟨"T", "c", [("s", ⟨"s", ∅, none⟩)], [.core], none, 0, 0, "stateful",
          none, some 0⟩)] "T" (some "s") (some 0) none 1).1 = .chunkOk 4096 ∧
    specEffectiveChunkSize (some 0) none = 0 ∧
    ((4096 : ℤ) ≠ specEffectiveChunkSize (some 0) none) ∧
    (transmit_chunk
        [("T", ⟨"T", "c2", [("s", ⟨"s", ∅, none⟩)], [.core], none, 0, 0, "stateful",
          none, some (-5)⟩)] "T" (some "s") (some 0) none 1).1 = .chunkOk 0 ∧
    specEffectiveChunkSize (some (-5)) none = -5 := by
  refine ⟨rfl, rfl, by decide, rfl, rfl⟩

/-- The effective chunk size as the amended claim C5 words it: the
negotiated chunk size when present and nonzero else the 4096-byte default,
then the minimum with the max packet size when that is present and
nonzero. -/
def amendedEffectiveChunkSize (chunk_size max_packet_size : Option ℤ) : ℤ :=
  match max_packet_size with
  | some m =>
      if m = 0 then (match chunk_size with | some cs => if cs = 0 then 4096 else cs | none => 4096)
      else min (match chunk_size with | some cs => if cs = 0 then 4096 else cs | none => 4096) m
  | none => match chunk_size with | some cs => if cs = 0 then 4096 else cs | none => 4096

theorem effective_eq_amended (cs mps : Option ℤ) :
    effectiveChunkSize cs mps = amendedEffectiveChunkSize cs mps := by
  unfold effectiveChunkSize amendedEffectiveChunkSize
  cases mps with
  | none => rfl
  | some m =>
    dsimp only
    by_cases hm : m = 0
    · rw [if_pos hm]
      rw [if_neg (by simp [hm])]
    · rw [if_neg hm]
      rcases lt_or_le m (match cs with | some c => if c = 0 then 4096 else c | none => 4096)
        with hlt | hle
      · rw [if_pos ⟨hm, hlt⟩]
        exact (min_eq_right (le_of_lt hlt)).symm
      · rw [if_neg (fun hc => absurd hc.2 (not_lt.mpr hle)), min_eq_left hle]

/-- Claim C5 amended: on every successful chunk exchange the payload has
exactly min(negotiated chunk size when present and nonzero else 4096,
negotiated max packet size when present and nonzero) bytes, provided the
negotiated sizes are nonnegative; this amended size function agrees with
the code everywhere. -/
theorem chunk_payload_size (store : Store) (tid sid : String) (pid : ℤ)
    (ts : TransmissionState) (st : StreamState) (now : ℚ)
    (hget : storageGet store tid = some ts)
    (hstream : List.lookup sid ts.streams = some st)
    (hexp : expiredCheck ts.ttl_seconds ts.created_at now = false)
    (hcs : ∀ c : ℤ, ts.chunk_size = some c → 0 ≤ c)
    (hmps : ∀ m : ℤ, ts.max_packet_size = some m → 0 ≤ m) :
    (transmit_chunk store tid (some sid) (some pid) none now).1 =
      .chunkOk (amendedEffectiveChunkSize ts.chunk_size ts.max_packet_size).toNat ∧
    0 ≤ amendedEffectiveChunkSize ts.chunk_size ts.max_packet_size ∧
    effectiveChunkSize ts.chunk_size ts.max_packet_size =
      amendedEffectiveChunkSize ts.chunk_size ts.max_packet_size := by
  have hbase : 0 ≤ (match ts.chunk_size with
      | some c => if c = 0 then 4096 else c
      | none => (4096 : ℤ)) := by
    cases hc : ts.chunk_size with
    | none => norm_num
    | some c =>
      dsimp only
      by_cases h0 : c = 0
      · rw [if_pos h0]; norm_num
      · rw [if_neg h0]; exact hcs c hc
  have hnonneg : 0 ≤ amendedEffectiveChunkSize ts.chunk_size ts.max_packet_size := by
    unfold amendedEffectiveChunkSize
    cases hmp : ts.max_packet_size with
    | none => exact hbase
    | some m =>
      dsimp only
      by_cases hm : m = 0
      · rw [if_pos hm]; exact hbase
      · rw [if_neg hm]
        exact le_min hbase (hmps m hmp)
  refine ⟨?_, hnonneg, effective_eq_amended ts.chunk_size ts.max_packet_size⟩
  rw [transmit_chunk_success store tid sid pid now ts st hget hstream hexp]
  rw [effective_eq_amended ts.chunk_size ts.max_packet_size]

/-- Witness for the amended claim C5: chunk size 4096 by default, clamped to
a max packet size of 1000. -/
theorem chunk_payload_size_witness :
    (transmit_chunk
        [("T", ⟨"T", "c", [("s", ⟨"s", ∅, none⟩)], [.core], none, 0, 0, "stateful",
          some 1000, none⟩)] "T" (some "s") (some 0) none 1).1 =
      .chunkOk (amendedEffectiveChunkSize
        (⟨"T", "c", [("s", ⟨"s", ∅, none⟩)], [.core], none, 0, 0, "stateful",
          some 1000, none⟩ : TransmissionState).chunk_size
        (⟨"T", "c", [("s", ⟨"s", ∅, none⟩)], [.core], none, 0, 0, "stateful",
          some 1000, none⟩ : TransmissionState).max_packet_size).toNat ∧
    0 ≤ amendedEffectiveChunkSize
        (⟨"T", "c", [("s", ⟨"s", ∅, none⟩)], [.core], none, 0, 0, "stateful",
          some 1000, none⟩ : TransmissionState).chunk_size
        (⟨"T", "c", [("s", ⟨"s", ∅, none⟩)], [.core], none, 0, 0, "stateful",
          some 1000, none⟩ : TransmissionState).max_packet_size ∧
    effectiveChunkSize
        (⟨"T", "c", [("s", ⟨"s", ∅, none⟩)], [.core], none, 0, 0, "stateful",
          some 1000, none⟩ : TransmissionState).chunk_size
        (⟨"T", "c", [("s", ⟨"s", ∅, none⟩)], [.core], none, 0, 0, "stateful",
          some 1000, none⟩ : TransmissionState).max_packet_size =
      amendedEffectiveChunkSize
        (⟨"T", "c", [("s", ⟨"s", ∅, none⟩)], [.core], none, 0, 0, "stateful",
          some 1000, none⟩ : TransmissionState).chunk_size
        (⟨"T", "c", [("s", ⟨"s", ∅, none⟩)], [.core], none, 0, 0, "stateful",
          some 1000, none⟩ : TransmissionState).max_packet_size :=
  chunk_payload_size
    [("T", ⟨"T", "c", [("s", ⟨"s", ∅, none⟩)], [.core], none, 0, 0, "stateful",
      some 1000, none⟩)] "T" "s" 0
    (⟨"T", "c", [("s", ⟨"s", ∅, none⟩)], [.core], none, 0, 0, "stateful",
      some 1000, none⟩ : TransmissionState) ⟨"s", ∅, none⟩ 1 rfl rfl rfl
    (fun c hc => by cases hc) (fun m hm => by injection hm with h; rw [← h]; norm_num)

/-- Claim C7: resuming an existing session rewrites only its last-activity
timestamp, set to the negotiation time; every other stored field, including
the feature set, TTL, sizes, stream map, client id, session mode and
creation timestamp, is carried over unchanged, and no other store entry is
touched. -/
theorem resumption_refreshes_only_last_activity (store : Store)
    (tid client st_type gen : String) (fs : List FeatureToggle)
    (streams : List String) (ttl mps cs : Option ℤ) (ts : TransmissionState)
    (now : ℚ)
    (htid : tid ≠ "") (hid : ts.id = tid) (hget : storageGet store tid = some ts)
    (hty : st_type ∈ (["stateful", "stateless"] : List String)) :
    ∃ resp : InitResponse,
      init_transmission store client fs st_type (some tid) streams ttl mps cs gen now =
        .ok resp (storageUpdate store { ts with last_received_time := now }) ∧
      storageGet (storageUpdate store { ts with last_received_time := now }) tid =
        some { ts with last_received_time := now } ∧
      (∀ k : String, k ≠ tid →
        storageGet (storageUpdate store { ts with last_received_time := now }) k =
          storageGet store k) := by
  have hid2 : ({ ts with last_received_time := now } : TransmissionState).id = tid := hid
  have hupd : storageUpdate store { ts with last_received_time := now } =
      dictSet store tid { ts with last_received_time := now } := by
    unfold storageUpdate
    rw [hid2]
    rw [show List.lookup tid store = some ts from hget]
    rfl
  refine ⟨mkInitResponse { ts with last_received_time := now }
    (negotiatedFeatures fs) streams, ?_, ?_, ?_⟩
  · exact init_transmission_resume store client fs st_type tid streams ttl mps cs gen
      now ts hty htid hget
  · rw [hupd]
    exact lookup_dictSet_self store tid _
  · intro k hk
    rw [hupd]
    exact lookup_dictSet_ne store tid k _ hk

/-- Witness for claim C7: resuming a stored session with different
negotiation parameters only refreshes its last-activity timestamp. -/
theorem resumption_refreshes_only_last_activity_witness :
    ∃ resp : InitResponse,
      init_transmission
          [("T", ⟨"T", "c", [("s", ⟨"s", ∅, none⟩)], [.core], some 9, 0, 0, "stateful",
            some 100, some 10⟩)] "c2" [.resend] "stateless" (some "T") ["v"] none none
          none "g" 7 =
        .ok resp
          (storageUpdate
            [("T", ⟨"T", "c", [("s", ⟨"s", ∅, none⟩)], [.core], some 9, 0, 0, "stateful",
              some 100, some 10⟩)]
            { (⟨"T", "c", [("s", ⟨"s", ∅, none⟩)], [.core], some 9, 0, 0, "stateful",
              some 100, some 10⟩ : TransmissionState) with last_received_time := 7 }) ∧
      storageGet
          (storageUpdate
            [("T", ⟨"T", "c", [("s", ⟨"s", ∅, none⟩)], [.core], some 9, 0, 0, "stateful",
              some 100, some 10⟩)]
            { (⟨"T", "c", [("s", ⟨"s", ∅, none⟩)], [.core], some 9, 0, 0, "stateful",
              some 100, some 10⟩ : TransmissionState) with last_received_time := 7 }) "T" =
        some
          { (⟨"T", "c", [("s", ⟨"s", ∅, none⟩)], [.core], some 9, 0, 0, "stateful",
            some 100, some 10⟩ : TransmissionState) with last_received_time := 7 } ∧
      (∀ k : String, k ≠ "T" →
        storageGet
            (storageUpdate
              [("T", ⟨"T", "c", [("s", ⟨"s", ∅, none⟩)], [.core], some 9, 0, 0, "stateful",
                some 100, some 10⟩)]
              { (⟨"T", "c", [("s", ⟨"s", ∅, none⟩)], [.core], some 9, 0, 0, "stateful",
                some 100, some 10⟩ : TransmissionState) with last_received_time := 7 }) k =
          storageGet
            [("T", ⟨"T", "c", [("s", ⟨"s", ∅, none⟩)], [.core], some 9, 0, 0, "stateful",
              some 100, some 10⟩)] k) :=
  resumption_refreshes_only_last_activity
    [("T", ⟨"T", "c", [("s", ⟨"s", ∅, none⟩)], [.core], some 9, 0, 0, "stateful",
      some 100, some 10⟩)] "T" "c2" "stateless" "g" [.resend] ["v"] none none none
    (⟨"T", "c", [("s", ⟨"s", ∅, none⟩)], [.core], some 9, 0, 0, "stateful",
      some 100, some 10⟩ : TransmissionState) 7
    (by decide) rfl rfl (by decide)

/-- Claim C9: on resumption the response is built from the current request,
not from the stored session: the enabled-features header is recomputed from
the features requested in this call and the accepted-streams header echoes
the streams requested in this call (absent when none were requested), while
the stored feature set and stream map stay untouched; a concrete resumption
requesting a new feature therefore receives a features header that differs
from the stored feature set. -/
theorem resumption_response_from_request (store : Store)
    (tid client st_type gen : String) (fs : List FeatureToggle)
    (streams : List String) (ttl mps cs : Option ℤ) (ts : TransmissionState)
    (now : ℚ)
    (htid : tid ≠ "") (hid : ts.id = tid) (hget : storageGet store tid = some ts)
    (hty : st_type ∈ (["stateful", "stateless"] : List String)) :
    ∃ (resp : InitResponse) (store2 : Store),
      init_transmission store client fs st_type (some tid) streams ttl mps cs gen now =
        .ok resp store2 ∧
      resp.features_enabled = negotiatedFeatures fs ∧
      (streams ≠ [] → resp.accepted_streams = some streams) ∧
      (streams = [] → resp.accepted_streams = none) ∧
      storageGet store2 tid = some { ts with last_received_time := now } ∧
      ({ ts with last_received_time := now } : TransmissionState).features_enabled =
        ts.features_enabled ∧
      ({ ts with last_received_time := now } : TransmissionState).streams = ts.streams ∧
      (∃ (resp2 : InitResponse) (store3 : Store),
        init_transmission [("T", ⟨"T", "c", [], [.core], none, 0, 0, "stateful", none, none⟩)]
            "c" [.resend] "stateful" (some "T") [] none none none "g" 5 =
          .ok resp2 store3 ∧
        resp2.features_enabled ≠
          (⟨"T", "c", [], [.core], none, 0, 0, "stateful", none, none⟩ :
            TransmissionState).features_enabled) := by
  have hid2 : ({ ts with last_received_time := now } : TransmissionState).id = tid := hid
  have hupd : storageUpdate store { ts with last_received_time := now } =
      dictSet store tid { ts with last_received_time := now } := by
    unfold storageUpdate
    rw [hid2]
    rw [show List.lookup tid store = some ts from hget]
    rfl
  refine ⟨mkInitResponse { ts with last_received_time := now }
      (negotiatedFeatures fs) streams,
    storageUpdate store { ts with last_received_time := now },
    init_transmission_resume store client fs st_type tid streams ttl mps cs gen
      now ts hty htid hget,
    rfl, ?_, ?_, ?_, rfl, rfl, ?_⟩
  · intro hne
    unfold mkInitResponse
    dsimp only
    rw [if_pos hne]
  · intro hempty
    unfold mkInitResponse
    dsimp only
    rw [if_neg (by simp [hempty])]
  · rw [hupd]
    exact lookup_dictSet_self store tid _
  · refine ⟨mkInitResponse
      { (⟨"T", "c", [], [.core], none, 0, 0, "stateful", none, none⟩ :
        TransmissionState) with last_received_time := 5 }
      (negotiatedFeatures [.resend]) [],
      storageUpdate [("T", ⟨"T", "c", [], [.core], none, 0, 0, "stateful", none, none⟩)]
        { (⟨"T", "c", [], [.core], none, 0, 0, "stateful", none, none⟩ :
          TransmissionState) with last_received_time := 5 }, ?_, ?_⟩
    · exact init_transmission_resume
        [("T", ⟨"T", "c", [], [.core], none, 0, 0, "stateful", none, none⟩)]
        "c" [.resend] "stateful" "T" [] none none none "g" 5
        (⟨"T", "c", [], [.core], none, 0, 0, "stateful", none, none⟩ :
          TransmissionState) (by decide) (by decide) rfl
    · intro h
      cases h

/-- Witness for claim C9: a resumption that asks for a feature and a stream
the original negotiation never mentioned. -/
theorem resumption_response_from_request_witness :
    ∃ (resp : InitResponse) (store2 : Store),
      init_transmission
          [("T", ⟨"T", "c", [("s", ⟨"s", ∅, none⟩)], [.core], none, 0, 0, "stateful",
            none, none⟩)] "c" [.multistream] "stateful" (some "T") ["v"] none none
          none "g" 5 =
        .ok resp store2 ∧
      resp.features_enabled = negotiatedFeatures [.multistream] ∧
      ((["v"] : List String) ≠ [] → resp.accepted_streams = some ["v"]) ∧
      ((["v"] : List String) = [] → resp.accepted_streams = none) ∧
      storageGet store2 "T" =
        some { (⟨"T", "c", [("s", ⟨"s", ∅, none⟩)], [.core], none, 0, 0, "stateful",
          none, none⟩ : TransmissionState) with last_received_time := 5 } ∧
      ({ (⟨"T", "c", [("s", ⟨"s", ∅, none⟩)], [.core], none, 0, 0, "stateful",
          none, none⟩ : TransmissionState) with last_received_time := 5 }
        : TransmissionState).features_enabled =
        (⟨"T", "c", [("s", ⟨"s", ∅, none⟩)], [.core], none, 0, 0, "stateful",
          none, none⟩ : TransmissionState).features_enabled ∧
      ({ (⟨"T", "c", [("s", ⟨"s", ∅, none⟩)], [.core], none, 0, 0, "stateful",
          none, none⟩ : TransmissionState) with last_received_time := 5 }
        : TransmissionState).streams =
        (⟨"T", "c", [("s", ⟨"s", ∅, none⟩)], [.core], none, 0, 0, "stateful",
          none, none⟩ : TransmissionState).streams ∧
      (∃ (resp2 : InitResponse) (store3 : Store),
        init_transmission [("T", ⟨"T", "c", [], [.core], none, 0, 0, "stateful", none, none⟩)]
            "c" [.resend] "stateful" (some "T") [] none none none "g" 5 =
          .ok resp2 store3 ∧
        resp2.features_enabled ≠
          (⟨"T", "c", [], [.core], none, 0, 0, "stateful", none, none⟩ :
            TransmissionState).features_enabled) :=
  resumption_response_from_request
    [("T", ⟨"T", "c", [("s", ⟨"s", ∅, none⟩)], [.core], none, 0, 0, "stateful",
      none, none⟩)] "T" "c" "stateful" "g" [.multistream] ["v"] none none none
    (⟨"T", "c", [("s", ⟨"s", ∅, none⟩)], [.core], none, 0, 0, "stateful",
      none, none⟩ : TransmissionState) 5
    (by decide) rfl rfl (by decide)
